import Mathlib

/-!
Shallow embedding of the Item-Tracking-System-for-Mushrooms repository
(src/src/main.py, src/scanner.py) and proofs about its specification claims.

The SQLite database is modelled as a record of lists (one per table); each
store operation is a pure function on that record.  String manipulation is
modelled over the character lists of Lean strings so that every definition
is executable by the kernel.
-/

namespace ITS

/-! ### Python string primitives, modelled over character lists -/

/-- Splitting a character list on a separator, as Python `str.split(sep)`
with a one-character separator: `"".split` gives `[""]`, separators at the
ends give empty chunks. -/
def splitCh (sep : Char) : List Char → List (List Char)
  | [] => [[]]
  | c :: cs =>
    let r := splitCh sep cs
    if c = sep then [] :: r
    else
      match r with
      | [] => [[c]]
      | h :: t => (c :: h) :: t

/-- Python `barcode.split('_')`, producing strings. -/
def pySplit (s : String) : List String :=
  (splitCh '_' s.data).map (fun l => String.mk l)

/-- Python `'_'.join(parts)`. -/
def joinUnd : List String → String
  | [] => ""
  | [x] => x
  | x :: xs => x ++ "_" ++ joinUnd xs

/-- Python `s.isdigit()` for ASCII content: nonempty and all decimal digits. -/
def pyDigits (l : List Char) : Bool :=
  !l.isEmpty && l.all Char.isDigit

/-- Decimal value of a digit character list, as Python `int` computes it on
an all-digit string. -/
def charsToNat (l : List Char) : Nat :=
  l.foldl (fun n c => n * 10 + (c.toNat - 48)) 0

/-- Python `int(s)`: an optional sign followed by at least one digit
(whitespace and underscore grouping are not used by the program's inputs). -/
def pyInt (s : String) : Option Int :=
  match s.data with
  | '-' :: rest => if pyDigits rest then some (-(charsToNat rest : Int)) else none
  | '+' :: rest => if pyDigits rest then some ((charsToNat rest : Int)) else none
  | l => if pyDigits l then some ((charsToNat l : Int)) else none

/-- The decimal digit character for `d < 10` (used by decimal rendering). -/
def digitCharOf : Nat → Char
  | 0 => '0' | 1 => '1' | 2 => '2' | 3 => '3' | 4 => '4'
  | 5 => '5' | 6 => '6' | 7 => '7' | 8 => '8' | _ => '9'

/-- Fuel-driven decimal rendering of a natural number (most significant digit
first); with fuel `> n` this is the decimal representation Python's `str`
produces. -/
def natCharsAux : Nat → Nat → List Char
  | 0, _ => []
  | fuel + 1, n =>
    if n < 10 then [digitCharOf n]
    else natCharsAux fuel (n / 10) ++ [digitCharOf (n % 10)]

/-- Decimal digits of `n`, as Python `str(n)` for a nonnegative integer. -/
def natChars (n : Nat) : List Char := natCharsAux (n + 1) n

/-- Python `str(n)` for `n : Nat`. -/
def natStr (n : Nat) : String := String.mk (natChars n)

/-- Python `str(i)` for an integer. -/
def intStr (i : Int) : String :=
  if i < 0 then "-" ++ natStr i.natAbs else natStr i.natAbs

/-- Python `f"{i:04d}"` for a natural number: the decimal digits left-padded
with zeros to at least four characters. -/
def pad4 (n : Nat) : String :=
  String.mk (List.replicate (4 - (natChars n).length) '0' ++ natChars n)

/-- Python `''.join(filter(str.isalnum, s)).upper()` — `to_upper_alphanumeric`
in main.py. -/
def to_upper_alphanumeric (s : String) : String :=
  String.mk ((s.data.filter Char.isAlphanum).map Char.toUpper)

/-- Python `s.strip()` (ASCII whitespace). -/
def pyStrip (s : String) : String :=
  String.mk (((s.data.dropWhile Char.isWhitespace).reverse.dropWhile Char.isWhitespace).reverse)

/-! ### The barcode codec (`parse_barcode`, `get_item_name`) -/

/-- The decoded barcode dictionary returned by `parse_barcode`. -/
structure Parsed where
  item_type : String
  generation : String
  created_date : String
  full_barcode : String
deriving DecidableEq

/-- `get_item_name` / `ITEM_CODES.get(code, "Unknown")`: look the item-type
code up in the registry, defaulting to `"Unknown"`. -/
def get_item_name (codes : List (String × String)) (code : String) : String :=
  match codes.find? (fun p => p.1 == code) with
  | some p => p.2
  | none => "Unknown"

/-- `parse_barcode(barcode, is_batch)` from main.py / scanner.py: split on
`'_'`, check the field count (batch: exactly 5; item: 5 or 6), normalise the
year (`2000 + y` when `y < 100`), build the created date `day.month.year`,
and resolve the item type through the registry.  `none` models the Python
`return None`. -/
def parse_barcode (codes : List (String × String)) (barcode : String)
    (is_batch : Bool) : Option Parsed :=
  let parts := pySplit barcode
  if is_batch && parts.length != 5 then none
  else if !is_batch && parts.length != 5 && parts.length != 6 then none
  else
    let item_code := parts.getD 0 ""
    let day := parts.getD 1 ""
    let month := parts.getD 2 ""
    let year := parts.getD 3 ""
    let generation := parts.getD 4 ""
    match pyInt year with
    | none => none
    | some y =>
      let full_year : Int := if y < 100 then 2000 + y else y
      some { item_type := get_item_name codes item_code
             generation := generation
             created_date := day ++ "." ++ month ++ "." ++ intStr full_year
             full_barcode := barcode }

/-- `looks_like_item_barcode`: nonempty and 5 or 6 underscore-split fields. -/
def looks_like_item_barcode (barcode : String) : Bool :=
  if barcode.data.isEmpty then false
  else (pySplit barcode).length == 5 || (pySplit barcode).length == 6

/-! ### The data model: one list per SQLite table -/

/-- A row of the `items` table. -/
structure Item where
  id : Nat
  full_barcode : String
  batch_barcode : String
  item_type : String
  generation : String
  created_date : String
  current_status : String
deriving DecidableEq

/-- A row of the `notes` table. -/
structure NoteRow where
  item_id : Nat
  note : String
deriving DecidableEq

/-- A row of the `locations` table. -/
structure LocationRow where
  barcode : String
  location_name : String
deriving DecidableEq

/-- A row of the `item_locations` table; `timestamp` models the
`DEFAULT CURRENT_TIMESTAMP` column. -/
structure ItemLocationRow where
  item_id : Nat
  location_barcode : String
  timestamp : Nat
deriving DecidableEq

/-- A row of the `item_scans` table. -/
structure ItemScanRow where
  barcode : String
  item_type : String
  generation : String
  created_date : String
  status : String
deriving DecidableEq

/-- A row of the `batch_scans` table. -/
structure BatchScanRow where
  batch_barcode : String
  item_type : String
  generation : String
  created_date : String
  quantity : Nat
  status : String
deriving DecidableEq

/-- The SQLite database: one list per table, plus the next `AUTOINCREMENT`
id for `items`. -/
structure DB where
  items : List Item
  notes : List NoteRow
  locations : List LocationRow
  item_locations : List ItemLocationRow
  item_scans : List ItemScanRow
  batch_scans : List BatchScanRow
  next_item_id : Nat
deriving DecidableEq

/-- Number of `items` rows carrying a given full barcode. -/
def countBarcode (db : DB) (fb : String) : Nat :=
  (db.items.filter (fun x => x.full_barcode == fb)).length

/-- `SELECT 1 FROM items WHERE full_barcode = ?` succeeded. -/
def hasBarcode (db : DB) (fb : String) : Bool :=
  db.items.any (fun x => x.full_barcode == fb)

/-! ### `ensure_item_exists` -/

/-- The body of `ensure_item_exists` after its existence check: derive the
batch barcode as the first five fields, `INSERT` the item with status `IN`,
and report success even when the `UNIQUE` constraint on `full_barcode` fires
(the `sqlite3.IntegrityError` handler for the benign creation race). -/
def ensure_item_insert_phase (db : DB) (full_barcode item_type generation
    created_date : String) : Bool × DB :=
  let parts := pySplit full_barcode
  if parts.length < 5 then (false, db)
  else
    let batch_barcode := joinUnd (parts.take 5)
    if hasBarcode db full_barcode then (true, db)
    else
      let row : Item :=
        { id := db.next_item_id, full_barcode := full_barcode,
          batch_barcode := batch_barcode, item_type := item_type,
          generation := generation, created_date := created_date,
          current_status := "IN" }
      (true, { db with
        items := db.items ++ [row]
        next_item_id := db.next_item_id + 1 })

/-- `ensure_item_exists(full_barcode, item_type, generation, created_date)`
from main.py / scanner.py: return success untouched when the barcode is
already present, otherwise run the insert phase. -/
def ensure_item_exists (db : DB) (full_barcode item_type generation
    created_date : String) : Bool × DB :=
  if hasBarcode db full_barcode then (true, db)
  else ensure_item_insert_phase db full_barcode item_type generation created_date

/-! ### Sequential allocation (`get_highest_item_number`, `create_batch`) -/

/-- The numeric suffix of a 6-field item barcode whose last field is all
digits; the per-row test `get_highest_item_number` applies. -/
def item_suffix (barcode : String) : Option Nat :=
  let parts := pySplit barcode
  if parts.length = 6 then
    let num_part := (parts.getD 5 "").data
    if pyDigits num_part then some (charsToNat num_part) else none
  else none

/-- The body of the `get_highest_item_number` loop: keep the larger of the
running maximum and the barcode's all-digit suffix when the barcode has six
fields. -/
def gh_step (max_num : Nat) (barcode : String) : Nat :=
  let parts := pySplit barcode
  if parts.length = 6 then
    let num_part := (parts.getD 5 "").data
    if pyDigits num_part then max max_num (charsToNat num_part) else max_num
  else max_num

/-- `get_highest_item_number` from main.py / scanner.py: fold over all item
barcodes keeping the largest all-digit suffix of the 6-field ones, starting
from 0. -/
def get_highest_item_number (barcodes : List String) : Nat :=
  barcodes.foldl gh_step 0

/-- All numeric suffixes of a database's item barcodes. -/
def dbSuffixes (db : DB) : List Nat :=
  (db.items.map (fun x => x.full_barcode)).filterMap item_suffix

/-- `start_num = get_highest_item_number() + 1` in `create_batch`. -/
def alloc_start (db : DB) : Nat :=
  get_highest_item_number (db.items.map (fun x => x.full_barcode)) + 1

/-- The item row `create_batch` inserts for sequence number `seq`. -/
def batch_item (base it gen cd : String) (id seq : Nat) : Item :=
  { id := id, full_barcode := base ++ "_" ++ pad4 seq, batch_barcode := base,
    item_type := it, generation := gen, created_date := cd,
    current_status := "IN" }

/-- The item-creation loop of `create_batch`: for each sequence number it
inserts an item (`UNIQUE full_barcode`; a violation raises
`sqlite3.IntegrityError`, modelled as `.error`, which aborts and rolls back
the whole transaction), a location assignment, and an `IN` scan row. -/
def create_batch_loop (db : DB) (base it gen cd loc : String) (now start : Nat) :
    Nat → Except Unit DB
  | 0 => .ok db
  | q + 1 =>
    let fb := base ++ "_" ++ pad4 start
    if hasBarcode db fb then .error ()
    else
      let locRow : ItemLocationRow :=
        { item_id := db.next_item_id, location_barcode := loc, timestamp := now }
      let scanRow : ItemScanRow :=
        { barcode := fb, item_type := it, generation := gen,
          created_date := cd, status := "IN" }
      let db2 : DB := { db with
        items := db.items ++ [batch_item base it gen cd db.next_item_id start]
        item_locations := db.item_locations ++ [locRow]
        item_scans := db.item_scans ++ [scanRow]
        next_item_id := db.next_item_id + 1 }
      create_batch_loop db2 base it gen cd loc now (start + 1) q

/-- The items `create_batch` generates: ids `id, id+1, …` paired with
sequence numbers `seq, seq+1, …` (specification vocabulary for stating what
the loop produces). -/
def gen_items (base it gen cd : String) : Nat → Nat → Nat → List Item
  | _, _, 0 => []
  | id, seq, q + 1 =>
    batch_item base it gen cd id seq :: gen_items base it gen cd (id + 1) (seq + 1) q

/-- The location assignments `create_batch` generates for ids `id, id+1, …`. -/
def gen_locs (loc : String) (now : Nat) : Nat → Nat → List ItemLocationRow
  | _, 0 => []
  | id, q + 1 =>
    { item_id := id, location_barcode := loc, timestamp := now } ::
      gen_locs loc now (id + 1) q

/-- The `IN` scan rows `create_batch` generates for sequence numbers
`seq, seq+1, …`. -/
def gen_scans (base it gen cd : String) : Nat → Nat → List ItemScanRow
  | _, 0 => []
  | seq, q + 1 =>
    { barcode := base ++ "_" ++ pad4 seq, item_type := it, generation := gen,
      created_date := cd, status := "IN" } ::
      gen_scans base it gen cd (seq + 1) q

/-- The write transaction of `create_batch`, taking the starting sequence
number as an argument because the code computes it beforehand with
`get_highest_item_number`, which opens (and closes) its own connection:
insert the `batch_scans` record, then run the item-creation loop.  `.error`
means the transaction raised and was rolled back by the caller. -/
def create_batch_write (db : DB) (base it gen cd loc : String)
    (start quantity now : Nat) : Except Unit DB :=
  let batchRow : BatchScanRow :=
    { batch_barcode := base, item_type := it, generation := gen,
      created_date := cd, quantity := quantity, status := "CREATED" }
  create_batch_loop { db with batch_scans := db.batch_scans ++ [batchRow] }
    base it gen cd loc now start quantity

/-- `create_batch` as a single sequential call: validate the location and a
positive quantity, compute the start from the current state, run the write
transaction, and keep the original state when it rolls back. -/
def create_batch (db : DB) (base it gen cd loc : String) (quantity now : Nat) :
    DB :=
  if !(db.locations.any (fun l => l.barcode == loc)) then db
  else if quantity = 0 then db
  else
    match create_batch_write db base it gen cd loc (alloc_start db) quantity now with
    | .ok db2 => db2
    | .error _ => db

/-! ### Moving items -/

/-- One scanned barcode handled inside main.py's `move_item_session` loop
(the session's target location was already validated): parse the barcode; if
the item is missing, create it with status `IN` (batch barcode = first five
fields); if it exists with status `OUT`, update its status to `IN`; then
append one location assignment (current timestamp) and one `IN` scan row,
and commit.  A parse failure or a short barcode leaves the state unchanged
(`continue`). -/
def move_scan_step (codes : List (String × String)) (db : DB)
    (barcode target : String) (now : Nat) : DB :=
  match parse_barcode codes barcode false with
  | none => db
  | some p =>
    let scanRow : ItemScanRow :=
      { barcode := barcode, item_type := p.item_type, generation := p.generation,
        created_date := p.created_date, status := "IN" }
    match db.items.find? (fun x => x.full_barcode == barcode) with
    | none =>
      let parts := pySplit barcode
      if parts.length < 5 then db
      else
        let row : Item :=
          { id := db.next_item_id, full_barcode := barcode,
            batch_barcode := joinUnd (parts.take 5), item_type := p.item_type,
            generation := p.generation, created_date := p.created_date,
            current_status := "IN" }
        let locRow : ItemLocationRow :=
          { item_id := row.id, location_barcode := target, timestamp := now }
        { db with
          items := db.items ++ [row]
          item_locations := db.item_locations ++ [locRow]
          item_scans := db.item_scans ++ [scanRow]
          next_item_id := db.next_item_id + 1 }
    | some it =>
      let items2 :=
        if it.current_status = "OUT" then
          db.items.map (fun x =>
            if x.id = it.id then { x with current_status := "IN" } else x)
        else db.items
      let locRow : ItemLocationRow :=
        { item_id := it.id, location_barcode := target, timestamp := now }
      { db with
        items := items2
        item_locations := db.item_locations ++ [locRow]
        item_scans := db.item_scans ++ [scanRow] }

/-- scanner.py's `move_item_to_location` (first attempt, no lock
contention): check the location is registered, look the item up (creating it
via `parse_barcode` and `ensure_item_exists` when missing), and append one
location assignment.  It neither touches `current_status` nor writes an
`item_scans` row. -/
def move_item_to_location (codes : List (String × String)) (db : DB)
    (item_barcode location_barcode : String) (now : Nat) : Bool × DB :=
  if !(db.locations.any (fun l => l.barcode == location_barcode)) then (false, db)
  else
    match db.items.find? (fun x => x.full_barcode == item_barcode) with
    | some r =>
      let locRow : ItemLocationRow :=
        { item_id := r.id, location_barcode := location_barcode, timestamp := now }
      (true, { db with item_locations := db.item_locations ++ [locRow] })
    | none =>
      match parse_barcode codes item_barcode false with
      | none => (false, db)
      | some p =>
        let res := ensure_item_exists db item_barcode p.item_type p.generation
          p.created_date
        if !res.1 then (false, res.2)
        else
          match res.2.items.find? (fun x => x.full_barcode == item_barcode) with
          | none => (false, res.2)
          | some r =>
            let locRow : ItemLocationRow :=
              { item_id := r.id, location_barcode := location_barcode,
                timestamp := now }
            (true, { res.2 with item_locations := res.2.item_locations ++ [locRow] })

/-! ### `log_scan` and its lock-retry loop -/

/-- What the database reports on one `INSERT`+`commit` attempt inside
`log_scan`: success, the `database is locked` `OperationalError`, or any
other exception. -/
inductive AttemptOutcome
  | ok
  | locked
  | failed
deriving DecidableEq

/-- The `while retries < max_retries` loop of `log_scan`.  The first
argument of the recursion is the remaining attempt budget
(`max_retries - retries`), the second the number of attempts already made;
`env` says how attempt number `i` turns out.  The result records the Python
return value, the database (the scan row is committed only on success; a
failed attempt's connection is closed without commit), the number of
attempts made, and the number of `time.sleep(retry_delay)` calls. -/
def log_scan_aux (db : DB) (row : ItemScanRow) (env : Nat → AttemptOutcome) :
    Nat → Nat → Bool × DB × Nat × Nat
  | 0, attempts => (false, db, attempts, 0)
  | remaining + 1, attempts =>
    match env attempts with
    | .ok => (true, { db with item_scans := db.item_scans ++ [row] }, attempts + 1, 0)
    | .locked =>
      let r := log_scan_aux db row env remaining (attempts + 1)
      (r.1, r.2.1, r.2.2.1, r.2.2.2 + 1)
    | .failed => (false, db, attempts + 1, 0)

/-- `log_scan(parsed_data, status, max_retries, retry_delay)`: run the retry
loop from zero attempts with budget `max_retries`. -/
def log_scan (db : DB) (row : ItemScanRow) (env : Nat → AttemptOutcome)
    (max_retries : Nat) : Bool × DB × Nat × Nat :=
  log_scan_aux db row env max_retries 0

/-! ### `register_location` (main.py) -/

/-- main.py's `register_location`: normalise the barcode with
`to_upper_alphanumeric`, reject an empty normalised barcode or a name that
is empty after `strip()`, then `INSERT OR REPLACE` — the row with the same
(unique) barcode is replaced, otherwise the row is appended. -/
def register_location (db : DB) (barcode location_name : String) : Bool × DB :=
  let clean := to_upper_alphanumeric barcode
  if clean.data.isEmpty then (false, db)
  else if (pyStrip location_name).data.isEmpty then (false, db)
  else
    let row : LocationRow := { barcode := clean, location_name := location_name }
    (true, { db with
      locations := db.locations.filter (fun l => l.barcode != clean) ++ [row] })

/-! ### `delete_all_out_items` (after the confirmation prompt) -/

/-- `delete_all_out_items` once the `DELETE ALL` confirmation was given:
count the `OUT` items; when none, report 0 and change nothing; otherwise, in
one transaction, delete the notes, location assignments and scans belonging
to `OUT` items and the `OUT` items themselves, and report the count. -/
def delete_all_out_items (db : DB) : Nat × DB :=
  let outItems := db.items.filter (fun x => x.current_status == "OUT")
  let out_count := outItems.length
  if out_count = 0 then (0, db)
  else
    let outIds := outItems.map (fun x => x.id)
    let outBarcodes := outItems.map (fun x => x.full_barcode)
    (out_count, { db with
      notes := db.notes.filter (fun n => !(outIds.contains n.item_id))
      item_locations := db.item_locations.filter (fun r => !(outIds.contains r.item_id))
      item_scans := db.item_scans.filter (fun r => !(outBarcodes.contains r.barcode))
      items := db.items.filter (fun x => !(x.current_status == "OUT")) })

/-! ### Concrete fixtures used by witnesses and counterexamples -/

/-- A small item-type registry as in `INITIAL_ITEM_CODES`. -/
def codes0 : List (String × String) := [("PIPI", "PioPino"), ("CHNU", "Chestnut")]

/-- The freshly initialised database. -/
def dbEmpty : DB :=
  { items := [], notes := [], locations := [], item_locations := [],
    item_scans := [], batch_scans := [], next_item_id := 1 }

/-- An item fixture. -/
def mkFixItem (id : Nat) (fb status : String) : Item :=
  { id := id, full_barcode := fb, batch_barcode := "PIPI_01_01_25_G1",
    item_type := "PioPino", generation := "G1", created_date := "01.01.2025",
    current_status := status }

/-- Fixture: items with suffixes 0001, 0007, 0003 and one registered
location. -/
def dbSeq : DB :=
  { items := [mkFixItem 1 "PIPI_01_01_25_G1_0001" "IN",
              mkFixItem 2 "PIPI_01_01_25_G1_0007" "IN",
              mkFixItem 3 "PIPI_01_01_25_G1_0003" "IN"],
    notes := [], locations := [{ barcode := "SHELF", location_name := "Shelf 1" }],
    item_locations := [], item_scans := [], batch_scans := [], next_item_id := 4 }

/-- Fixture: one `OUT` item, one `IN` item, one registered location. -/
def dbMove : DB :=
  { items := [mkFixItem 1 "PIPI_01_01_25_G1_0001" "OUT",
              mkFixItem 2 "PIPI_01_01_25_G1_0002" "IN"],
    notes := [], locations := [{ barcode := "SHELF", location_name := "Shelf 1" }],
    item_locations := [], item_scans := [], batch_scans := [], next_item_id := 3 }

/-- Fixture: two `OUT` items (ids 1, 2) and three `IN` items (ids 3, 4, 5),
each `OUT` item carrying a note, a location assignment and a scan row, and
one `IN` item carrying the same kinds of rows. -/
def dbPurge : DB :=
  { items := [mkFixItem 1 "PIPI_01_01_25_G1_0001" "OUT",
              mkFixItem 2 "PIPI_01_01_25_G1_0002" "OUT",
              mkFixItem 3 "PIPI_01_01_25_G1_0003" "IN",
              mkFixItem 4 "PIPI_01_01_25_G1_0004" "IN",
              mkFixItem 5 "PIPI_01_01_25_G1_0005" "IN"],
    notes := [{ item_id := 1, note := "bad" }, { item_id := 2, note := "worse" },
              { item_id := 3, note := "keep" }],
    locations := [{ barcode := "SHELF", location_name := "Shelf 1" }],
    item_locations := [{ item_id := 1, location_barcode := "SHELF", timestamp := 1 },
                       { item_id := 3, location_barcode := "SHELF", timestamp := 2 }],
    item_scans := [{ barcode := "PIPI_01_01_25_G1_0001", item_type := "PioPino",
                     generation := "G1", created_date := "01.01.2025", status := "OUT" },
                   { barcode := "PIPI_01_01_25_G1_0003", item_type := "PioPino",
                     generation := "G1", created_date := "01.01.2025", status := "IN" }],
    batch_scans := [], next_item_id := 6 }

/-- Fixture: an empty store with one registered location, the state both
concurrent `create_batch` calls read their starting number from. -/
def dbC5 : DB :=
  { items := [], notes := [], locations := [{ barcode := "SHELF", location_name := "Shelf 1" }],
    item_locations := [], item_scans := [], batch_scans := [], next_item_id := 1 }

/-- Fixture: a store with one registered location named `Old`. -/
def dbLoc : DB :=
  { items := [], notes := [],
    locations := [{ barcode := "LOC1", location_name := "Old" }],
    item_locations := [], item_scans := [], batch_scans := [], next_item_id := 1 }

/-- An environment in which every `log_scan` attempt hits
`database is locked`. -/
def lockedEnv : Nat → AttemptOutcome := fun _ => .locked

/-- An environment in which the very first `log_scan` attempt raises a
non-lock error. -/
def failEnv : Nat → AttemptOutcome := fun _ => .failed

/-- A scan row fixture for the `log_scan` theorems. -/
def scanRow0 : ItemScanRow :=
  { barcode := "PIPI_01_01_25_G1_0001", item_type := "PioPino", generation := "G1",
    created_date := "01.01.2025", status := "OUT" }

/-- Two interleaved `create_batch` calls on different batch prefixes, both
of which read their starting number from `dbC5` before either write began —
exactly what the code permits, because `get_highest_item_number` opens its
own connection, separate from the write transaction.  The first call's
write commits, then the second call's write runs against the committed
state while still using its stale starting number. -/
def c5_run : Except Unit DB :=
  match create_batch_write dbC5 "PIPI_01_01_25_G1" "PioPino" "G1" "01.01.2025"
      "SHELF" (alloc_start dbC5) 1 0 with
  | .ok dbA => create_batch_write dbA "CHNU_01_01_25_G1" "Chestnut" "G1"
      "01.01.2025" "SHELF" (alloc_start dbC5) 1 0
  | .error e => .error e

/-- The state both interleaved calls leave behind (`dbC5` if either rolled
back). -/
def c5_final : DB :=
  match c5_run with
  | .ok d => d
  | .error _ => dbC5

/-! ### Helper lemmas: strings and decimal rendering -/

theorem str_data_inj {s t : String} (h : s.data = t.data) : s = t := by
  cases s; cases t; exact congrArg String.mk h

theorem mk_data (s : String) : String.mk s.data = s := by
  cases s; rfl

theorem splitCh_ne_nil (sep : Char) (l : List Char) : splitCh sep l ≠ [] := by
  induction l with
  | nil => simp [splitCh]
  | cons c cs ih =>
    simp only [splitCh]
    split
    · simp
    · split
      · simp
      · simp

theorem splitCh_cons_self (sep : Char) (l : List Char) :
    splitCh sep (sep :: l) = [] :: splitCh sep l := by
  simp [splitCh]

theorem splitCh_cons_of_ne (sep c : Char) (l : List Char) (hc : c ≠ sep)
    (h : List Char) (t : List (List Char)) (hs : splitCh sep l = h :: t) :
    splitCh sep (c :: l) = (c :: h) :: t := by
  simp only [splitCh, if_neg hc, hs]

theorem splitCh_append_sep (sep : Char) (l₁ l₂ : List Char) :
    splitCh sep (l₁ ++ sep :: l₂) = splitCh sep l₁ ++ splitCh sep l₂ := by
  induction l₁ with
  | nil => simp [splitCh]
  | cons c cs ih =>
    by_cases hc : c = sep
    · subst hc
      rw [List.cons_append, splitCh_cons_self, ih, splitCh_cons_self, List.cons_append]
    · obtain ⟨h, t, ht⟩ : ∃ h t, splitCh sep cs = h :: t := by
        cases hcs : splitCh sep cs with
        | nil => exact absurd hcs (splitCh_ne_nil sep cs)
        | cons a b => exact ⟨a, b, rfl⟩
      have lhs : splitCh sep ((c :: cs) ++ sep :: l₂) = (c :: h) :: (t ++ splitCh sep l₂) := by
        rw [List.cons_append]
        exact splitCh_cons_of_ne sep c _ hc h (t ++ splitCh sep l₂) (by rw [ih, ht]; rfl)
      rw [lhs, splitCh_cons_of_ne sep c cs hc h t ht]
      rfl

theorem splitCh_no_sep (sep : Char) (l : List Char) (h : ∀ c ∈ l, c ≠ sep) :
    splitCh sep l = [l] := by
  induction l with
  | nil => rfl
  | cons c cs ih =>
    have hc : c ≠ sep := h c (by simp)
    have hcs : splitCh sep cs = [cs] := ih (fun x hx => h x (by simp [hx]))
    exact splitCh_cons_of_ne sep c cs hc cs [] hcs

theorem digitCharOf_toNat (d : Nat) (h : d < 10) : (digitCharOf d).toNat = 48 + d := by
  interval_cases d <;> rfl

theorem digitCharOf_isDigit (d : Nat) (h : d < 10) : (digitCharOf d).isDigit = true := by
  interval_cases d <;> rfl

theorem natCharsAux_spec (fuel : Nat) : ∀ n, n < fuel →
    natCharsAux fuel n ≠ [] ∧
    (∀ c ∈ natCharsAux fuel n, c.isDigit = true) ∧
    ∀ a : Nat, List.foldl (fun m c => m * 10 + (c.toNat - 48)) a (natCharsAux fuel n)
      = a * 10 ^ (natCharsAux fuel n).length + n := by
  induction fuel with
  | zero => intro n h; exact absurd h (Nat.not_lt_zero n)
  | succ fuel ih =>
    intro n hn
    by_cases h10 : n < 10
    · refine ⟨by simp [natCharsAux, if_pos h10], ?_, ?_⟩
      · intro c hc
        simp only [natCharsAux, if_pos h10, List.mem_singleton] at hc
        subst hc
        exact digitCharOf_isDigit n h10
      · intro a
        simp only [natCharsAux, if_pos h10, List.foldl_cons, List.foldl_nil,
          List.length_singleton, pow_one, digitCharOf_toNat n h10]
        omega
    · have hd : n / 10 < fuel := by
        have h1 : n / 10 < n := Nat.div_lt_self (by omega) (by omega)
        omega
      obtain ⟨hne, hdig, hval⟩ := ih (n / 10) hd
      refine ⟨by simp [natCharsAux, if_neg h10], ?_, ?_⟩
      · intro c hc
        simp only [natCharsAux, if_neg h10, List.mem_append, List.mem_singleton] at hc
        rcases hc with hc | hc
        · exact hdig c hc
        · subst hc
          exact digitCharOf_isDigit (n % 10) (Nat.mod_lt n (by omega))
      · intro a
        simp only [natCharsAux, if_neg h10, List.foldl_append, List.foldl_cons,
          List.foldl_nil, List.length_append, List.length_singleton,
          digitCharOf_toNat (n % 10) (Nat.mod_lt n (by omega)), hval a]
        rw [pow_succ]
        have hmod := Nat.div_add_mod n 10
        ring_nf
        omega

theorem natChars_ne_nil (n : Nat) : natChars n ≠ [] :=
  (natCharsAux_spec (n + 1) n (Nat.lt_succ_self n)).1

theorem natChars_all_digit (n : Nat) : ∀ c ∈ natChars n, c.isDigit = true :=
  (natCharsAux_spec (n + 1) n (Nat.lt_succ_self n)).2.1

theorem charsToNat_natChars (n : Nat) : charsToNat (natChars n) = n := by
  have h := (natCharsAux_spec (n + 1) n (Nat.lt_succ_self n)).2.2 0
  simpa [charsToNat, natChars] using h

theorem charsToNat_zeros_append (m : Nat) (l : List Char) :
    charsToNat (List.replicate m '0' ++ l) = charsToNat l := by
  induction m with
  | zero => rfl
  | succ m ih =>
    simp only [List.replicate_succ, List.cons_append, charsToNat, List.foldl_cons]
    exact ih

theorem pad4_data (n : Nat) :
    (pad4 n).data = List.replicate (4 - (natChars n).length) '0' ++ natChars n := rfl

theorem charsToNat_pad4 (n : Nat) : charsToNat (pad4 n).data = n := by
  rw [pad4_data, charsToNat_zeros_append, charsToNat_natChars]

theorem pad4_all_digit (n : Nat) : ∀ c ∈ (pad4 n).data, c.isDigit = true := by
  intro c hc
  rw [pad4_data, List.mem_append] at hc
  rcases hc with hc | hc
  · rw [List.eq_of_mem_replicate hc]
    rfl
  · exact natChars_all_digit n c hc

theorem pyDigits_pad4 (n : Nat) : pyDigits (pad4 n).data = true := by
  have h1 : (pad4 n).data ≠ [] := by
    rw [pad4_data]
    intro h
    exact natChars_ne_nil n (List.append_eq_nil.mp h).2
  simp only [pyDigits, Bool.and_eq_true]
  constructor
  · cases hl : (pad4 n).data with
    | nil => exact absurd hl h1
    | cons c cs => rfl
  · rw [List.all_eq_true]
    intro c hc
    exact pad4_all_digit n c hc

theorem pad4_inj {a b : Nat} (h : pad4 a = pad4 b) : a = b := by
  have hd : (pad4 a).data = (pad4 b).data := congrArg String.data h
  have := charsToNat_pad4 a
  rw [hd, charsToNat_pad4] at this
  omega

/-! ### Helper lemmas: generated item barcodes -/

theorem digit_ne_underscore {c : Char} (h : c.isDigit = true) : c ≠ '_' := by
  intro he
  subst he
  exact absurd h (by decide)

theorem data_append3 (base tail : String) :
    (base ++ "_" ++ tail).data = base.data ++ '_' :: tail.data := by
  rw [String.data_append, String.data_append, List.append_assoc]
  rfl

theorem pySplit_append_pad4 (base : String) (k : Nat) :
    pySplit (base ++ "_" ++ pad4 k) = pySplit base ++ [pad4 k] := by
  unfold pySplit
  rw [data_append3, splitCh_append_sep, List.map_append]
  have hs : splitCh '_' (pad4 k).data = [(pad4 k).data] :=
    splitCh_no_sep '_' (pad4 k).data
      (fun c hc => digit_ne_underscore (pad4_all_digit k c hc))
  rw [hs]
  simp [mk_data]

theorem getD_append_5 (l : List String) (x : String) (h : l.length = 5) :
    (l ++ [x]).getD 5 "" = x := by
  match l, h with
  | [a, b, c, d, e], _ => rfl

theorem item_suffix_generated (base : String) (k : Nat)
    (h : (pySplit base).length = 5) :
    item_suffix (base ++ "_" ++ pad4 k) = some k := by
  unfold item_suffix
  rw [pySplit_append_pad4]
  have hlen : (pySplit base ++ [pad4 k]).length = 6 := by
    simp [h]
  rw [if_pos hlen, getD_append_5 _ _ h]
  simp [pyDigits_pad4, charsToNat_pad4]

theorem generated_barcode_inj (base : String) {j k : Nat}
    (h : base ++ "_" ++ pad4 j = base ++ "_" ++ pad4 k) : j = k := by
  have hd := congrArg String.data h
  rw [data_append3, data_append3] at hd
  have h2 : '_' :: (pad4 j).data = '_' :: (pad4 k).data :=
    List.append_cancel_left hd
  have h3 : (pad4 j).data = (pad4 k).data := by
    injection h2
  exact pad4_inj (str_data_inj h3)

/-! ### Helper lemmas: `get_highest_item_number` as a maximum -/

theorem gh_step_eq (a : Nat) (b : String) :
    gh_step a b = match item_suffix b with
      | some n => max a n
      | none => a := by
  simp only [gh_step, item_suffix]
  split_ifs <;> rfl

theorem get_highest_aux (bs : List String) : ∀ a : Nat,
    bs.foldl gh_step a = (bs.filterMap item_suffix).foldl max a := by
  induction bs with
  | nil => intro a; rfl
  | cons b bs ih =>
    intro a
    simp only [List.foldl_cons, List.filterMap_cons, gh_step_eq a b]
    cases hs : item_suffix b with
    | none => exact ih a
    | some n => exact ih (max a n)

theorem get_highest_eq (bs : List String) :
    get_highest_item_number bs = (bs.filterMap item_suffix).foldl max 0 := by
  unfold get_highest_item_number
  exact get_highest_aux bs 0

theorem foldl_max_init_le (l : List Nat) : ∀ a : Nat, a ≤ l.foldl max a := by
  induction l with
  | nil => intro a; exact le_refl a
  | cons x xs ih =>
    intro a
    calc a ≤ max a x := le_max_left a x
    _ ≤ xs.foldl max (max a x) := ih (max a x)

theorem mem_le_foldl_max (l : List Nat) : ∀ a : Nat, ∀ x ∈ l, x ≤ l.foldl max a := by
  induction l with
  | nil => intro a x hx; exact absurd hx (List.not_mem_nil x)
  | cons y ys ih =>
    intro a x hx
    rcases List.mem_cons.mp hx with h | h
    · subst h
      calc x ≤ max a x := le_max_right a x
      _ ≤ ys.foldl max (max a x) := foldl_max_init_le ys (max a x)
    · exact ih (max a y) x h

theorem foldl_max_eq_or_mem (l : List Nat) : ∀ a : Nat,
    l.foldl max a = a ∨ l.foldl max a ∈ l := by
  induction l with
  | nil => intro a; exact Or.inl rfl
  | cons y ys ih =>
    intro a
    simp only [List.foldl_cons]
    rcases ih (max a y) with h | h
    · rcases max_choice a y with hm | hm
      · exact Or.inl (h.trans hm)
      · exact Or.inr (by rw [h.trans hm]; exact List.mem_cons_self y ys)
    · exact Or.inr (List.mem_cons_of_mem y h)

/-! ### Helper lemmas: barcode lookups -/

theorem hasBarcode_true_iff (db : DB) (fb : String) :
    hasBarcode db fb = true ↔ ∃ x ∈ db.items, x.full_barcode = fb := by
  simp [hasBarcode]

theorem hasBarcode_false_iff (db : DB) (fb : String) :
    hasBarcode db fb = false ↔ ∀ x ∈ db.items, x.full_barcode ≠ fb := by
  simp [hasBarcode]

theorem countBarcode_eq_zero {db : DB} {fb : String}
    (h : hasBarcode db fb = false) : countBarcode db fb = 0 := by
  rw [countBarcode, List.length_eq_zero, List.filter_eq_nil_iff]
  intro x hx
  simp [(hasBarcode_false_iff db fb).mp h x hx]

theorem countBarcode_pos {db : DB} {fb : String}
    (h : hasBarcode db fb = true) : 1 ≤ countBarcode db fb := by
  obtain ⟨x, hx, he⟩ := (hasBarcode_true_iff db fb).mp h
  exact List.length_pos_of_mem (List.mem_filter.mpr ⟨hx, by simp [he]⟩)

/-! ### Helper lemmas: the `create_batch` loop -/

theorem create_batch_loop_spec (base it gen cd loc : String) (now : Nat) :
    ∀ (q : Nat) (db : DB) (start : Nat),
    (∀ x ∈ db.items, ∀ k, start ≤ k → x.full_barcode ≠ base ++ "_" ++ pad4 k) →
    create_batch_loop db base it gen cd loc now start q = .ok
      { items := db.items ++ gen_items base it gen cd db.next_item_id start q,
        notes := db.notes, locations := db.locations,
        item_locations := db.item_locations ++ gen_locs loc now db.next_item_id q,
        item_scans := db.item_scans ++ gen_scans base it gen cd start q,
        batch_scans := db.batch_scans,
        next_item_id := db.next_item_id + q } := by
  intro q
  induction q with
  | zero =>
    intro db start H
    simp [create_batch_loop, gen_items, gen_locs, gen_scans]
  | succ q ih =>
    intro db start H
    have hfb : hasBarcode db (base ++ "_" ++ pad4 start) = false :=
      (hasBarcode_false_iff db _).mpr (fun x hx => H x hx start (le_refl start))
    have H2 : ∀ x ∈ db.items ++ [batch_item base it gen cd db.next_item_id start],
        ∀ k, start + 1 ≤ k → x.full_barcode ≠ base ++ "_" ++ pad4 k := by
      intro x hx k hk
      rcases List.mem_append.mp hx with hx | hx
      · exact H x hx k (by omega)
      · rw [List.mem_singleton.mp hx]
        intro he
        have := generated_barcode_inj base he
        omega
    simp only [create_batch_loop, hfb, Bool.false_eq_true, if_false]
    rw [ih _ (start + 1) H2]
    simp only [Except.ok.injEq, gen_items, gen_locs, gen_scans, DB.mk.injEq]
    refine ⟨by simp [List.append_assoc], trivial, trivial, by simp [List.append_assoc],
      by simp [List.append_assoc], trivial, by omega⟩

theorem gen_items_length (base it gen cd : String) :
    ∀ q id seq, (gen_items base it gen cd id seq q).length = q := by
  intro q
  induction q with
  | zero => intro id seq; rfl
  | succ q ih =>
    intro id seq
    simp [gen_items, ih]

theorem gen_items_barcodes (base it gen cd : String) :
    ∀ q id seq, (gen_items base it gen cd id seq q).map (fun x => x.full_barcode)
      = (List.range' seq q).map (fun s => base ++ "_" ++ pad4 s) := by
  intro q
  induction q with
  | zero => intro id seq; rfl
  | succ q ih =>
    intro id seq
    simp only [gen_items, List.range'_succ, List.map_cons, ih]
    rfl

theorem filterMap_suffix_range' (base : String) (h : (pySplit base).length = 5) :
    ∀ q s, ((List.range' s q).map (fun k => base ++ "_" ++ pad4 k)).filterMap item_suffix
      = List.range' s q := by
  intro q
  induction q with
  | zero => intro s; rfl
  | succ q ih =>
    intro s
    simp only [List.range'_succ, List.map_cons, List.filterMap_cons,
      item_suffix_generated base s h, ih]

theorem suffix_le_get_highest (db : DB) {k : Nat} (h : k ∈ dbSuffixes db) :
    k ≤ get_highest_item_number (db.items.map (fun x => x.full_barcode)) := by
  unfold dbSuffixes at h
  rw [get_highest_eq]
  exact mem_le_foldl_max _ 0 k h

theorem create_batch_no_collision (db : DB) (base : String)
    (hbase : (pySplit base).length = 5) :
    ∀ x ∈ db.items, ∀ k, alloc_start db ≤ k →
      x.full_barcode ≠ base ++ "_" ++ pad4 k := by
  intro x hx k hk he
  have hsfx : item_suffix x.full_barcode = some k := by
    rw [he]
    exact item_suffix_generated base k hbase
  have hmem : k ∈ dbSuffixes db := by
    unfold dbSuffixes
    exact List.mem_filterMap.mpr ⟨x.full_barcode, List.mem_map_of_mem _ hx, hsfx⟩
  have := suffix_le_get_highest db hmem
  unfold alloc_start at hk
  omega

theorem create_batch_ok (db : DB) (base it gen cd loc : String) (quantity now : Nat)
    (hloc : db.locations.any (fun l => l.barcode == loc) = true)
    (hq : quantity ≠ 0) (hbase : (pySplit base).length = 5) :
    create_batch db base it gen cd loc quantity now =
      { items := db.items ++ gen_items base it gen cd db.next_item_id (alloc_start db) quantity,
        notes := db.notes, locations := db.locations,
        item_locations := db.item_locations ++ gen_locs loc now db.next_item_id quantity,
        item_scans := db.item_scans ++ gen_scans base it gen cd (alloc_start db) quantity,
        batch_scans := db.batch_scans ++
          [{ batch_barcode := base, item_type := it, generation := gen,
             created_date := cd, quantity := quantity, status := "CREATED" }],
        next_item_id := db.next_item_id + quantity } := by
  unfold create_batch create_batch_write
  rw [hloc]
  simp only [Bool.not_true, Bool.false_eq_true, if_false, if_neg hq]
  have hspec := create_batch_loop_spec base it gen cd loc now quantity
    { db with batch_scans := db.batch_scans ++
        [{ batch_barcode := base, item_type := it, generation := gen,
           created_date := cd, quantity := quantity, status := "CREATED" }] }
    (alloc_start db)
    (fun x hx => create_batch_no_collision db base hbase x hx)
  rw [hspec]

/-! ### Helper lemmas: `parse_barcode` -/

theorem parse_barcode_item_eq (codes : List (String × String)) (b : String)
    (h : (pySplit b).length = 5 ∨ (pySplit b).length = 6) :
    parse_barcode codes b false =
      match pyInt ((pySplit b).getD 3 "") with
      | none => none
      | some y => some
        { item_type := get_item_name codes ((pySplit b).getD 0 ""),
          generation := (pySplit b).getD 4 "",
          created_date := (pySplit b).getD 1 "" ++ "." ++ (pySplit b).getD 2 ""
            ++ "." ++ intStr (if y < 100 then 2000 + y else y),
          full_barcode := b } := by
  unfold parse_barcode
  rcases h with h | h <;> simp [h]

theorem parse_barcode_batch_wrong_count (codes : List (String × String))
    (b : String) (h : (pySplit b).length ≠ 5) :
    parse_barcode codes b true = none := by
  unfold parse_barcode
  simp [h]

theorem parse_barcode_item_wrong_count (codes : List (String × String))
    (b : String) (h5 : (pySplit b).length ≠ 5) (h6 : (pySplit b).length ≠ 6) :
    parse_barcode codes b false = none := by
  unfold parse_barcode
  simp [h5, h6]

/-! ### Helper lemmas: `ensure_item_exists` -/

theorem ensure_exists_already {db : DB} {fb : String} (it gen cd : String)
    (h : hasBarcode db fb = true) :
    ensure_item_exists db fb it gen cd = (true, db) := by
  unfold ensure_item_exists
  rw [h]
  rfl

theorem ensure_exists_inserts {db : DB} {fb : String} (it gen cd : String)
    (h : hasBarcode db fb = false) (hlen : ¬ (pySplit fb).length < 5) :
    ensure_item_exists db fb it gen cd = (true, { db with
      items := db.items ++
        [{ id := db.next_item_id, full_barcode := fb,
           batch_barcode := joinUnd ((pySplit fb).take 5), item_type := it,
           generation := gen, created_date := cd, current_status := "IN" }],
      next_item_id := db.next_item_id + 1 }) := by
  unfold ensure_item_exists ensure_item_insert_phase
  rw [h]
  simp only [Bool.false_eq_true, if_false, if_neg hlen, h]

/-! ## Claims -/

/-- Claim C2: `get_highest_item_number` scans every existing item barcode:
it bounds each numeric suffix of the 6-field barcodes from above and is
either 0 or one of those suffixes, so the next allocated number
`alloc_start` equals the maximum suffix plus 1 (1 when no 6-field item
exists); `create_batch` with quantity `q` then appends exactly `q` items
whose barcodes carry the contiguous zero-padded suffixes `max+1 … max+q`
(for example, existing suffixes 0001, 0007, 0003 and quantity 2 allocate
0008 and 0009 — see the witness). -/
theorem claim_C2 (db : DB) (base it gen cd loc : String) (quantity now : Nat)
    (hloc : db.locations.any (fun l => l.barcode == loc) = true)
    (hq : quantity ≠ 0) (hbase : (pySplit base).length = 5) :
    (∀ s ∈ dbSuffixes db,
      s ≤ get_highest_item_number (db.items.map (fun x => x.full_barcode))) ∧
    (get_highest_item_number (db.items.map (fun x => x.full_barcode)) = 0 ∨
      get_highest_item_number (db.items.map (fun x => x.full_barcode)) ∈ dbSuffixes db) ∧
    alloc_start db = get_highest_item_number (db.items.map (fun x => x.full_barcode)) + 1 ∧
    (create_batch db base it gen cd loc quantity now).items
      = db.items ++ gen_items base it gen cd db.next_item_id (alloc_start db) quantity ∧
    (gen_items base it gen cd db.next_item_id (alloc_start db) quantity).length = quantity ∧
    (gen_items base it gen cd db.next_item_id (alloc_start db) quantity).map
        (fun x => x.full_barcode)
      = (List.range' (alloc_start db) quantity).map (fun s => base ++ "_" ++ pad4 s) ∧
    dbSuffixes (create_batch db base it gen cd loc quantity now)
      = dbSuffixes db ++ List.range' (alloc_start db) quantity := by
  refine ⟨fun s hs => suffix_le_get_highest db hs, ?_, rfl, ?_, ?_, ?_, ?_⟩
  · rw [get_highest_eq]
    exact foldl_max_eq_or_mem _ 0
  · rw [create_batch_ok db base it gen cd loc quantity now hloc hq hbase]
  · exact gen_items_length base it gen cd quantity db.next_item_id (alloc_start db)
  · exact gen_items_barcodes base it gen cd quantity db.next_item_id (alloc_start db)
  · rw [create_batch_ok db base it gen cd loc quantity now hloc hq hbase]
    unfold dbSuffixes
    rw [List.map_append, List.filterMap_append,
      gen_items_barcodes base it gen cd quantity db.next_item_id (alloc_start db),
      filterMap_suffix_range' base hbase quantity (alloc_start db)]

/-- Witness for C2 at the claim's own example: a store whose items carry
suffixes 0001, 0007, 0003; `create_batch` with quantity 2 allocates 0008
and 0009. -/
theorem claim_C2_witness :
    dbSuffixes (create_batch dbSeq "PIPI_01_01_25_G1" "PioPino" "G1" "01.01.2025" "SHELF" 2 0)
      = [1, 7, 3, 8, 9] ∧
    (create_batch dbSeq "PIPI_01_01_25_G1" "PioPino" "G1" "01.01.2025" "SHELF" 2 0).items.map
        (fun x => x.full_barcode)
      = ["PIPI_01_01_25_G1_0001", "PIPI_01_01_25_G1_0007", "PIPI_01_01_25_G1_0003",
         "PIPI_01_01_25_G1_0008", "PIPI_01_01_25_G1_0009"] := by
  have h := claim_C2 dbSeq "PIPI_01_01_25_G1" "PioPino" "G1" "01.01.2025" "SHELF" 2 0
    (by decide) (by decide) (by decide)
  constructor
  · rw [h.2.2.2.2.2.2]
    decide
  · rw [h.2.2.2.1]
    decide

/-- Claim C7: when the underscore-split field count is acceptable for an
item barcode (5 or 6) and the year field parses to the integer `y`,
`parse_barcode` succeeds and writes the created year as `2000 + y` when
`y < 100` and as `y` unchanged when `y ≥ 100` into the `day.month.year`
created date. -/
theorem claim_C7 (codes : List (String × String)) (b : String) (y : Int)
    (h : (pySplit b).length = 5 ∨ (pySplit b).length = 6)
    (hy : pyInt ((pySplit b).getD 3 "") = some y) :
    parse_barcode codes b false = some
      { item_type := get_item_name codes ((pySplit b).getD 0 ""),
        generation := (pySplit b).getD 4 "",
        created_date := (pySplit b).getD 1 "" ++ "." ++ (pySplit b).getD 2 ""
          ++ "." ++ intStr (if y < 100 then 2000 + y else y),
        full_barcode := b } := by
  rw [parse_barcode_item_eq codes b h, hy]

/-- Witness for C7: year field `"23"` yields created year `2023`, and the
4-digit year field `"2023"` is passed through unchanged. -/
theorem claim_C7_witness :
    parse_barcode codes0 "PIPI_01_02_23_G1" false = some
      { item_type := "PioPino", generation := "G1",
        created_date := "01.02.2023", full_barcode := "PIPI_01_02_23_G1" } ∧
    parse_barcode codes0 "PIPI_01_02_2023_G1_0001" false = some
      { item_type := "PioPino", generation := "G1",
        created_date := "01.02.2023", full_barcode := "PIPI_01_02_2023_G1_0001" } := by
  constructor
  · exact (claim_C7 codes0 "PIPI_01_02_23_G1" 23
      (Or.inl (by decide)) (by decide)).trans (by decide)
  · exact (claim_C7 codes0 "PIPI_01_02_2023_G1_0001" 2023
      (Or.inr (by decide)) (by decide)).trans (by decide)

/-- Counterexample to C8 as stated: `"AAAA_01_01_XX_G1"` has exactly 5
underscore-split fields — the expected arity both for a batch and for an
item — yet `parse_barcode` rejects it (the year field does not parse), so
decode does not fail with `InvalidFormat` *exactly* when the field count
mismatches. -/
theorem claim_C8_counterexample :
    (pySplit "AAAA_01_01_XX_G1").length = 5 ∧
    parse_barcode [] "AAAA_01_01_XX_G1" true = none ∧
    parse_barcode [] "AAAA_01_01_XX_G1" false = none := by
  refine ⟨by decide, by decide, by decide⟩

/-- Claim C8 (amended): a field count different from the expected arity is
sufficient for decode to reject — every input with field count other than 5
is rejected when expecting a batch, and every input with field count
neither 5 nor 6 is rejected when expecting an item — and a successful
decode guarantees the matching field count; the converse fails, since a
well-shaped input whose year field does not parse is also rejected. -/
theorem claim_C8 (codes : List (String × String)) (b : String) :
    ((pySplit b).length ≠ 5 → parse_barcode codes b true = none) ∧
    ((pySplit b).length ≠ 5 → (pySplit b).length ≠ 6 →
      parse_barcode codes b false = none) ∧
    (∀ p, parse_barcode codes b true = some p → (pySplit b).length = 5) ∧
    (∀ p, parse_barcode codes b false = some p →
      (pySplit b).length = 5 ∨ (pySplit b).length = 6) := by
  refine ⟨parse_barcode_batch_wrong_count codes b,
    parse_barcode_item_wrong_count codes b, ?_, ?_⟩
  · intro p hp
    by_contra h5
    rw [parse_barcode_batch_wrong_count codes b h5] at hp
    exact Option.noConfusion hp
  · intro p hp
    by_contra hn
    push_neg at hn
    rw [parse_barcode_item_wrong_count codes b hn.1 hn.2] at hp
    exact Option.noConfusion hp

/-- Witness for C8: a 3-field input is rejected in both modes, and a
successful 5-field decode certifies its field count through the theorem. -/
theorem claim_C8_witness :
    parse_barcode codes0 "PIPI_01_01" true = none ∧
    parse_barcode codes0 "PIPI_01_01" false = none ∧
    ((pySplit "PIPI_01_02_23_G1").length = 5 ∨
      (pySplit "PIPI_01_02_23_G1").length = 6) := by
  have h := claim_C8 codes0 "PIPI_01_01"
  have h2 := claim_C8 codes0 "PIPI_01_02_23_G1"
  refine ⟨h.1 (by decide), h.2.1 (by decide) (by decide), ?_⟩
  exact h2.2.2.2 ⟨"PioPino", "G1", "01.02.2023", "PIPI_01_02_23_G1"⟩ (by decide)

/-- Claim C9: on an input whose field count is acceptable for an item (5 or
6 fields), `parse_barcode` fails exactly when the year field (field 4) is
not parseable as an integer; in particular the day and month fields are
never parsed numerically — whenever the year parses, decode succeeds no
matter what text the other fields hold. -/
theorem claim_C9 (codes : List (String × String)) (b : String)
    (h : (pySplit b).length = 5 ∨ (pySplit b).length = 6) :
    (pyInt ((pySplit b).getD 3 "") = none → parse_barcode codes b false = none) ∧
    (∀ y, pyInt ((pySplit b).getD 3 "") = some y →
      parse_barcode codes b false ≠ none) := by
  constructor
  · intro hn
    rw [parse_barcode_item_eq codes b h, hn]
  · intro y hy
    rw [parse_barcode_item_eq codes b h, hy]
    exact Option.noConfusion

/-- Witness for C9: a well-shaped 5-field barcode with year `"XX"` is
rejected, while arbitrary text in the day and month fields (`"QQ"`, `"ZZ"`)
is accepted once the year parses. -/
theorem claim_C9_witness :
    parse_barcode codes0 "AAAA_01_01_XX_G1" false = none ∧
    parse_barcode codes0 "AAAA_QQ_ZZ_7_G1_0001" false ≠ none := by
  constructor
  · exact (claim_C9 codes0 "AAAA_01_01_XX_G1" (Or.inl (by decide))).1 (by decide)
  · exact (claim_C9 codes0 "AAAA_QQ_ZZ_7_G1_0001" (Or.inr (by decide))).2 7 (by decide)

/-- Claim C1: for a valid 6-field barcode (it decodes to `p`) in a store
satisfying the uniqueness invariant, `ensure_item_exists` run twice returns
success both times, the second run changes nothing, and exactly one item
row with that barcode remains; when the barcode already exists the call
returns success without modification, otherwise it inserts one row with
status `IN` whose `batch_barcode` is the first five fields joined by the
delimiter; and a uniqueness violation inside the insert phase (the barcode
appeared between the existence check and the `INSERT`, the racing-creators
case) is reported as success with no change. -/
theorem claim_C1 (codes : List (String × String)) (db : DB) (b : String)
    (p : Parsed) (h6 : (pySplit b).length = 6)
    (hp : parse_barcode codes b false = some p)
    (huniq : countBarcode db b ≤ 1) :
    (ensure_item_exists db b p.item_type p.generation p.created_date).1 = true ∧
    (ensure_item_exists
      (ensure_item_exists db b p.item_type p.generation p.created_date).2
      b p.item_type p.generation p.created_date).1 = true ∧
    (ensure_item_exists
      (ensure_item_exists db b p.item_type p.generation p.created_date).2
      b p.item_type p.generation p.created_date).2
      = (ensure_item_exists db b p.item_type p.generation p.created_date).2 ∧
    countBarcode
      (ensure_item_exists db b p.item_type p.generation p.created_date).2 b = 1 ∧
    (hasBarcode db b = true →
      (ensure_item_exists db b p.item_type p.generation p.created_date).2 = db) ∧
    (hasBarcode db b = false →
      (ensure_item_exists db b p.item_type p.generation p.created_date).2.items
        = db.items ++
          [{ id := db.next_item_id, full_barcode := b,
             batch_barcode := joinUnd ((pySplit b).take 5), item_type := p.item_type,
             generation := p.generation, created_date := p.created_date,
             current_status := "IN" }]) ∧
    (hasBarcode db b = true →
      ensure_item_insert_phase db b p.item_type p.generation p.created_date
        = (true, db)) := by
  have hlen : ¬ (pySplit b).length < 5 := by omega
  by_cases hb : hasBarcode db b
  · rw [ensure_exists_already p.item_type p.generation p.created_date hb]
    have hcount : countBarcode db b = 1 := by
      have := countBarcode_pos hb
      omega
    refine ⟨rfl, ?_, ?_, hcount, fun _ => rfl, fun hfalse => absurd hb (by simp [hfalse]), ?_⟩
    · rw [ensure_exists_already p.item_type p.generation p.created_date hb]
    · rw [ensure_exists_already p.item_type p.generation p.created_date hb]
    · intro _
      unfold ensure_item_insert_phase
      rw [if_neg hlen, hb]
      rfl
  · have hb0 : hasBarcode db b = false := by simp [hb]
    rw [ensure_exists_inserts p.item_type p.generation p.created_date hb0 hlen]
    have hb1 : hasBarcode { db with
        items := db.items ++
          [{ id := db.next_item_id, full_barcode := b,
             batch_barcode := joinUnd ((pySplit b).take 5), item_type := p.item_type,
             generation := p.generation, created_date := p.created_date,
             current_status := "IN" }],
        next_item_id := db.next_item_id + 1 } b = true := by
      simp [hasBarcode, List.any_append]
    rw [ensure_exists_already p.item_type p.generation p.created_date hb1]
    have hcount0 : countBarcode db b = 0 := countBarcode_eq_zero hb0
    refine ⟨rfl, rfl, rfl, ?_, fun htrue => absurd htrue (by simp [hb0]), fun _ => rfl, ?_⟩
    · simp only [countBarcode, List.filter_append] at hcount0 ⊢
      simp [hcount0]
    · intro htrue
      exact absurd htrue (by simp [hb0])

/-- Witness for C1 on a fresh store: the double `ensure_item_exists` of a
decoded 6-field barcode reports success and leaves exactly one matching
item row. -/
theorem claim_C1_witness :
    (ensure_item_exists
      (ensure_item_exists dbEmpty "PIPI_01_01_25_G1_0001" "PioPino" "G1" "01.01.2025").2
      "PIPI_01_01_25_G1_0001" "PioPino" "G1" "01.01.2025").1 = true ∧
    countBarcode
      (ensure_item_exists dbEmpty "PIPI_01_01_25_G1_0001" "PioPino" "G1" "01.01.2025").2
      "PIPI_01_01_25_G1_0001" = 1 := by
  have h := claim_C1 codes0 dbEmpty "PIPI_01_01_25_G1_0001"
    ⟨"PioPino", "G1", "01.01.2025", "PIPI_01_01_25_G1_0001"⟩
    (by decide) (by decide) (by decide)
  exact ⟨h.2.1, h.2.2.2.1⟩

/-- Counterexample to C10 as stated: the name `" "` is not the empty string
and the normalized barcode `"LOC1"` is nonempty, yet `register_location`
rejects the registration — so it is not the case that *only* an empty
normalized barcode or an empty name is rejected (whitespace-only names are
rejected too, because the code tests `location_name.strip()`). -/
theorem claim_C10_counterexample :
    to_upper_alphanumeric "LOC1" ≠ "" ∧ (" " : String) ≠ "" ∧
    register_location dbEmpty "LOC1" " " = (false, dbEmpty) := by
  refine ⟨by decide, by decide, by decide⟩

/-- Claim C10 (amended): `register_location` normalizes the barcode by
dropping every non-alphanumeric character and uppercasing; a registration
whose normalized barcode collides with an existing location silently
replaces that location's name (upsert) instead of failing; and a
registration is rejected exactly when the normalized barcode is empty or
the name is blank — empty after stripping whitespace. -/
theorem claim_C10 (db : DB) (b n : String) :
    to_upper_alphanumeric b
      = String.mk ((b.data.filter Char.isAlphanum).map Char.toUpper) ∧
    ((to_upper_alphanumeric b).data = [] ∨ (pyStrip n).data = [] →
      register_location db b n = (false, db)) ∧
    ((to_upper_alphanumeric b).data ≠ [] → (pyStrip n).data ≠ [] →
      register_location db b n
        = (true, { db with locations :=
            db.locations.filter (fun l => l.barcode != to_upper_alphanumeric b) ++
              [{ barcode := to_upper_alphanumeric b, location_name := n }] }) ∧
      ({ barcode := to_upper_alphanumeric b, location_name := n } : LocationRow)
        ∈ (register_location db b n).2.locations ∧
      (∀ l ∈ db.locations, l.barcode ≠ to_upper_alphanumeric b →
        l ∈ (register_location db b n).2.locations) ∧
      (∀ l ∈ (register_location db b n).2.locations,
        l.barcode = to_upper_alphanumeric b → l.location_name = n)) := by
  refine ⟨rfl, ?_, ?_⟩
  · intro h
    unfold register_location
    rcases h with h | h
    · simp [h]
    · rcases hb : (to_upper_alphanumeric b).data.isEmpty with _ | _
      · simp [hb, h]
      · simp [hb, h]
  · intro hb hn
    have hb' : (to_upper_alphanumeric b).data.isEmpty = false := by
      simpa using hb
    have hn' : (pyStrip n).data.isEmpty = false := by
      simpa using hn
    have hres : register_location db b n
        = (true, { db with locations :=
            db.locations.filter (fun l => l.barcode != to_upper_alphanumeric b) ++
              [{ barcode := to_upper_alphanumeric b, location_name := n }] }) := by
      unfold register_location
      simp [hb', hn']
    refine ⟨hres, ?_, ?_, ?_⟩
    · rw [hres]
      simp
    · intro l hl hne
      rw [hres]
      simp only [List.mem_append]
      exact Or.inl (List.mem_filter.mpr ⟨hl, by simp [bne_iff_ne, hne]⟩)
    · intro l hl heq
      rw [hres] at hl
      simp only [List.mem_append, List.mem_singleton] at hl
      rcases hl with hl | hl
      · have := (List.mem_filter.mp hl).2
        simp only [bne_iff_ne, ne_eq, decide_eq_true_eq] at this
        exact absurd heq this
      · rw [hl]

/-- Witness for C10: registering barcode `"loc-1!"` (which normalizes to
the already-registered `"LOC1"`) with name `"New"` succeeds and replaces
the old name. -/
theorem claim_C10_witness :
    (register_location dbLoc "loc-1!" "New").1 = true ∧
    (register_location dbLoc "loc-1!" "New").2.locations
      = [{ barcode := "LOC1", location_name := "New" }] := by
  have h := (claim_C10 dbLoc "loc-1!" "New").2.2 (by decide) (by decide)
  rw [h.1]
  exact ⟨rfl, by decide⟩

/-- Claim C4: in a store whose items have pairwise-distinct ids and
barcodes (the table's `PRIMARY KEY` and `UNIQUE` invariants),
`delete_all_out_items` reports the number of `OUT` items, keeps exactly the
non-`OUT` items, removes a note or location assignment exactly when it
belongs to an `OUT` item and a scan row exactly when it carries an `OUT`
item's barcode, leaves the location and batch tables untouched, keeps every
`IN` item together with all of its notes, location assignments and scans,
and reports 0 without touching anything when no `OUT` item exists. -/
theorem claim_C4 (db : DB)
    (hids : ∀ a ∈ db.items, ∀ c ∈ db.items, a.id = c.id → a = c)
    (hbcs : ∀ a ∈ db.items, ∀ c ∈ db.items, a.full_barcode = c.full_barcode → a = c) :
    (delete_all_out_items db).1
      = (db.items.filter (fun x => x.current_status == "OUT")).length ∧
    (delete_all_out_items db).2.items
      = db.items.filter (fun x => !(x.current_status == "OUT")) ∧
    (∀ nt ∈ db.notes, (nt ∈ (delete_all_out_items db).2.notes ↔
      ¬ ∃ x ∈ db.items, x.current_status = "OUT" ∧ x.id = nt.item_id)) ∧
    (∀ r ∈ db.item_locations, (r ∈ (delete_all_out_items db).2.item_locations ↔
      ¬ ∃ x ∈ db.items, x.current_status = "OUT" ∧ x.id = r.item_id)) ∧
    (∀ r ∈ db.item_scans, (r ∈ (delete_all_out_items db).2.item_scans ↔
      ¬ ∃ x ∈ db.items, x.current_status = "OUT" ∧ x.full_barcode = r.barcode)) ∧
    (delete_all_out_items db).2.locations = db.locations ∧
    (delete_all_out_items db).2.batch_scans = db.batch_scans ∧
    (∀ x ∈ db.items, x.current_status ≠ "OUT" →
      x ∈ (delete_all_out_items db).2.items ∧
      (∀ nt ∈ db.notes, nt.item_id = x.id → nt ∈ (delete_all_out_items db).2.notes) ∧
      (∀ r ∈ db.item_locations, r.item_id = x.id →
        r ∈ (delete_all_out_items db).2.item_locations) ∧
      (∀ r ∈ db.item_scans, r.barcode = x.full_barcode →
        r ∈ (delete_all_out_items db).2.item_scans)) ∧
    ((db.items.filter (fun x => x.current_status == "OUT")).length = 0 →
      delete_all_out_items db = (0, db)) := by
  have hout : ∀ n : Nat, (((db.items.filter (fun x => x.current_status == "OUT")).map
      (fun x => x.id)).contains n) = true ↔
      ∃ x ∈ db.items, x.current_status = "OUT" ∧ x.id = n := by
    intro n
    simp only [List.contains_eq_any_beq, List.any_eq_true, List.mem_map,
      List.mem_filter, beq_iff_eq]
    constructor
    · rintro ⟨m, ⟨x, ⟨hx, hs⟩, rfl⟩, he⟩
      exact ⟨x, hx, by simpa using hs, he.symm⟩
    · rintro ⟨x, hx, hs, he⟩
      exact ⟨x.id, ⟨x, ⟨hx, by simpa using hs⟩, rfl⟩, he.symm⟩
  have houtb : ∀ s : String, (((db.items.filter (fun x => x.current_status == "OUT")).map
      (fun x => x.full_barcode)).contains s) = true ↔
      ∃ x ∈ db.items, x.current_status = "OUT" ∧ x.full_barcode = s := by
    intro s
    simp only [List.contains_eq_any_beq, List.any_eq_true, List.mem_map,
      List.mem_filter, beq_iff_eq]
    constructor
    · rintro ⟨m, ⟨x, ⟨hx, hs⟩, rfl⟩, he⟩
      exact ⟨x, hx, by simpa using hs, he.symm⟩
    · rintro ⟨x, hx, hs, he⟩
      exact ⟨x.full_barcode, ⟨x, ⟨hx, by simpa using hs⟩, rfl⟩, he.symm⟩
  by_cases h0 : (db.items.filter (fun x => x.current_status == "OUT")).length = 0
  · have hres : delete_all_out_items db = (0, db) := by
      unfold delete_all_out_items
      rw [if_pos h0]
    have hnoout : ∀ x ∈ db.items, ¬ x.current_status = "OUT" := by
      intro x hx hs
      have : x ∈ db.items.filter (fun x => x.current_status == "OUT") :=
        List.mem_filter.mpr ⟨hx, by simp [hs]⟩
      rw [List.length_eq_zero.mp h0] at this
      exact absurd this (List.not_mem_nil x)
    rw [hres]
    refine ⟨by omega, ?_, ?_, ?_, ?_, rfl, rfl, ?_, fun _ => rfl⟩
    · exact (List.filter_eq_self.mpr (fun x hx => by simp [hnoout x hx])).symm
    · intro nt hnt
      refine ⟨fun _ => ?_, fun _ => hnt⟩
      rintro ⟨x, hx, hs, _⟩
      exact hnoout x hx hs
    · intro r hr
      refine ⟨fun _ => ?_, fun _ => hr⟩
      rintro ⟨x, hx, hs, _⟩
      exact hnoout x hx hs
    · intro r hr
      refine ⟨fun _ => ?_, fun _ => hr⟩
      rintro ⟨x, hx, hs, _⟩
      exact hnoout x hx hs
    · intro x hx _
      exact ⟨hx, fun nt hnt _ => hnt, fun r hr _ => hr, fun r hr _ => hr⟩
  · have hres : delete_all_out_items db = (
        (db.items.filter (fun x => x.current_status == "OUT")).length,
        { db with
          notes := db.notes.filter (fun nt =>
            !(((db.items.filter (fun x => x.current_status == "OUT")).map
              (fun x => x.id)).contains nt.item_id)),
          item_locations := db.item_locations.filter (fun r =>
            !(((db.items.filter (fun x => x.current_status == "OUT")).map
              (fun x => x.id)).contains r.item_id)),
          item_scans := db.item_scans.filter (fun r =>
            !(((db.items.filter (fun x => x.current_status == "OUT")).map
              (fun x => x.full_barcode)).contains r.barcode)),
          items := db.items.filter (fun x => !(x.current_status == "OUT")) }) := by
      unfold delete_all_out_items
      rw [if_neg h0]
    rw [hres]
    refine ⟨rfl, rfl, ?_, ?_, ?_, rfl, rfl, ?_, fun hz => absurd hz h0⟩
    · intro nt hnt
      simp only [List.mem_filter, hnt, true_and, Bool.not_eq_true']
      rw [← Bool.not_eq_true, not_iff_not]
      exact hout nt.item_id
    · intro r hr
      simp only [List.mem_filter, hr, true_and, Bool.not_eq_true']
      rw [← Bool.not_eq_true, not_iff_not]
      exact hout r.item_id
    · intro r hr
      simp only [List.mem_filter, hr, true_and, Bool.not_eq_true']
      rw [← Bool.not_eq_true, not_iff_not]
      exact houtb r.barcode
    · intro x hx hxin
      refine ⟨List.mem_filter.mpr ⟨hx, by simp [hxin]⟩, ?_, ?_, ?_⟩
      · intro nt hnt hid
        refine List.mem_filter.mpr ⟨hnt, ?_⟩
        simp only [Bool.not_eq_true']
        rw [← Bool.not_eq_true]
        rw [hout nt.item_id]
        rintro ⟨y, hy, hys, hyid⟩
        have : y = x := hids y hy x hx (by omega)
        rw [this] at hys
        exact hxin hys
      · intro r hr hid
        refine List.mem_filter.mpr ⟨hr, ?_⟩
        simp only [Bool.not_eq_true']
        rw [← Bool.not_eq_true]
        rw [hout r.item_id]
        rintro ⟨y, hy, hys, hyid⟩
        have : y = x := hids y hy x hx (by omega)
        rw [this] at hys
        exact hxin hys
      · intro r hr hbc
        refine List.mem_filter.mpr ⟨hr, ?_⟩
        simp only [Bool.not_eq_true']
        rw [← Bool.not_eq_true]
        rw [houtb r.barcode]
        rintro ⟨y, hy, hys, hyb⟩
        have : y = x := hbcs y hy x hx (by rw [hyb, hbc])
        rw [this] at hys
        exact hxin hys

/-- Witness for C4 at the claim's example shape: 2 `OUT` and 3 `IN` items;
the purge reports 2, keeps exactly the three `IN` items, keeps their data
and drops the `OUT` items' notes, location history and scans. -/
theorem claim_C4_witness :
    (delete_all_out_items dbPurge).1 = 2 ∧
    (delete_all_out_items dbPurge).2.items
      = [mkFixItem 3 "PIPI_01_01_25_G1_0003" "IN",
         mkFixItem 4 "PIPI_01_01_25_G1_0004" "IN",
         mkFixItem 5 "PIPI_01_01_25_G1_0005" "IN"] := by
  have h := claim_C4 dbPurge (by decide) (by decide)
  constructor
  · rw [h.1]
    decide
  · rw [h.2.1]
    decide

/-- Counterexample to C6 as stated: exhausting the retry budget under
permanent lock contention and failing immediately with a non-lock error
both make `log_scan` return the same value `false` — there is no
`LockTimeout` outcome distinct from an ordinary failure (the code only
prints different messages). -/
theorem claim_C6_counterexample :
    log_scan dbEmpty scanRow0 lockedEnv 3 = (false, dbEmpty, 3, 3) ∧
    log_scan dbEmpty scanRow0 failEnv 3 = (false, dbEmpty, 1, 0) ∧
    (log_scan dbEmpty scanRow0 lockedEnv 3).1
      = (log_scan dbEmpty scanRow0 failEnv 3).1 := by
  refine ⟨by decide, by decide, by decide⟩

/-- Claim C6 (amended): `log_scan` retries a lock-busy failure until
`max_retries` total attempts (default 3) have been made, sleeping
`retry_delay` (default 0.2 s) after every lock-busy attempt — the result
records the attempt and sleep counts — and after exhaustion returns `false`
with the store unchanged, the *same* value an immediate non-lock failure
returns (only the printed message differs, so the outcome is not a distinct
`LockTimeout`); any non-lock failure aborts on its first attempt with no
retry and no sleep, the in-flight transaction discarded (store unchanged);
and a successful attempt after `k` lock-busy ones commits exactly one scan
row. -/
theorem claim_C6 (db : DB) (row : ItemScanRow) (env : Nat → AttemptOutcome)
    (max_retries : Nat) :
    ((∀ i < max_retries, env i = .locked) →
      log_scan db row env max_retries = (false, db, max_retries, max_retries)) ∧
    (env 0 = .failed → 0 < max_retries →
      log_scan db row env max_retries = (false, db, 1, 0)) ∧
    (∀ k < max_retries, (∀ i < k, env i = .locked) → env k = .ok →
      log_scan db row env max_retries
        = (true, { db with item_scans := db.item_scans ++ [row] }, k + 1, k)) := by
  have haux : ∀ remaining attempts : Nat,
      (∀ i, attempts ≤ i → i < attempts + remaining → env i = .locked) →
      log_scan_aux db row env remaining attempts
        = (false, db, attempts + remaining, remaining) := by
    intro remaining
    induction remaining with
    | zero => intro attempts _; rfl
    | succ remaining ih =>
      intro attempts h
      have h0 : env attempts = .locked := h attempts (le_refl _) (by omega)
      have ihv := ih (attempts + 1) (fun i hi1 hi2 => h i (by omega) (by omega))
      simp only [log_scan_aux, h0, ihv]
      refine Prod.ext rfl (Prod.ext rfl (Prod.ext ?_ ?_)) <;> simp <;> omega
  have hsucc : ∀ k remaining attempts : Nat, k < remaining →
      (∀ i, attempts ≤ i → i < attempts + k → env i = .locked) →
      env (attempts + k) = .ok →
      log_scan_aux db row env remaining attempts
        = (true, { db with item_scans := db.item_scans ++ [row] },
           attempts + k + 1, k) := by
    intro k
    induction k with
    | zero =>
      intro remaining attempts hk _ hok
      match remaining, hk with
      | remaining + 1, _ =>
        simp only [log_scan_aux]
        rw [show env attempts = .ok by simpa using hok]
    | succ k ih =>
      intro remaining attempts hk hlock hok
      match remaining, hk with
      | remaining + 1, hk =>
        have h0 : env attempts = .locked := hlock attempts (le_refl _) (by omega)
        have ihv := ih remaining (attempts + 1) (by omega)
          (fun i hi1 hi2 => hlock i (by omega) (by omega))
          (by rw [show attempts + 1 + k = attempts + (k + 1) by omega]; exact hok)
        simp only [log_scan_aux, h0, ihv]
        refine Prod.ext rfl (Prod.ext rfl (Prod.ext ?_ ?_)) <;> simp <;> omega
  refine ⟨?_, ?_, ?_⟩
  · intro h
    have := haux max_retries 0 (fun i hi1 hi2 => h i (by omega))
    simpa [log_scan] using this
  · intro h0 hm
    match max_retries, hm with
    | max_retries + 1, _ =>
      unfold log_scan
      simp only [log_scan_aux, h0]
  · intro k hk hlock hok
    have := hsucc k max_retries 0 hk (fun i hi1 hi2 => hlock i (by omega))
      (by simpa using hok)
    simpa [log_scan] using this

/-- Witness for C6: with the default budget of 3, permanent lock contention
yields failure after 3 attempts and 3 sleeps with the store unchanged, and
an attempt succeeding after 2 lock-busy ones commits exactly one scan
row. -/
theorem claim_C6_witness :
    log_scan dbEmpty scanRow0 lockedEnv 3 = (false, dbEmpty, 3, 3) ∧
    log_scan dbEmpty scanRow0 (fun i => if i < 2 then .locked else .ok) 3
      = (true, { dbEmpty with item_scans := [scanRow0] }, 3, 2) := by
  constructor
  · exact (claim_C6 dbEmpty scanRow0 lockedEnv 3).1 (by decide)
  · exact ((claim_C6 dbEmpty scanRow0 (fun i => if i < 2 then .locked else .ok) 3).2.2
      2 (by omega) (by decide) (by decide)).trans (by decide)

/-- Counterexample to C3 as stated: scanner.py's `move_item_to_location`
(cited by the claim) succeeds on an existing `OUT` item while leaving its
status `OUT` and its scan log untouched — it appends only the
LocationAssignment, neither the status transition to `IN` nor the
`ScanEvent(IN)` the claim requires of the move operation. -/
theorem claim_C3_counterexample :
    mkFixItem 1 "PIPI_01_01_25_G1_0001" "OUT" ∈ dbMove.items ∧
    (move_item_to_location codes0 dbMove "PIPI_01_01_25_G1_0001" "SHELF" 5).1 = true ∧
    (move_item_to_location codes0 dbMove "PIPI_01_01_25_G1_0001" "SHELF" 5).2.items
      = dbMove.items ∧
    (move_item_to_location codes0 dbMove "PIPI_01_01_25_G1_0001" "SHELF" 5).2.item_scans
      = dbMove.item_scans ∧
    (move_item_to_location codes0 dbMove "PIPI_01_01_25_G1_0001" "SHELF" 5).2.item_locations
      = dbMove.item_locations ++
        [{ item_id := 1, location_barcode := "SHELF", timestamp := 5 }] := by
  refine ⟨by decide, by decide, by decide, by decide, by decide⟩

/-- Claim C3 (amended): in main.py — whose `move_item_session` handles each
scanned item — moving an existing item whose status is `OUT` sets that
item's status back to `IN` and appends exactly one LocationAssignment
(carrying the current timestamp) and exactly one ScanEvent with status
`IN`, leaving every other item row and all other tables unchanged;
scanner.py's legacy `move_item_to_location`, by contrast, appends only the
LocationAssignment (see the counterexample). -/
theorem claim_C3 (codes : List (String × String)) (db : DB)
    (barcode target : String) (now : Nat) (p : Parsed) (it : Item)
    (hp : parse_barcode codes barcode false = some p)
    (hfind : db.items.find? (fun x => x.full_barcode == barcode) = some it)
    (hout : it.current_status = "OUT") :
    (move_scan_step codes db barcode target now).item_locations
      = db.item_locations ++
        [{ item_id := it.id, location_barcode := target, timestamp := now }] ∧
    (move_scan_step codes db barcode target now).item_scans
      = db.item_scans ++
        [{ barcode := barcode, item_type := p.item_type, generation := p.generation,
           created_date := p.created_date, status := "IN" }] ∧
    (move_scan_step codes db barcode target now).items
      = db.items.map (fun x =>
          if x.id = it.id then { x with current_status := "IN" } else x) ∧
    { it with current_status := "IN" } ∈ (move_scan_step codes db barcode target now).items ∧
    (∀ x ∈ db.items, x.id ≠ it.id →
      x ∈ (move_scan_step codes db barcode target now).items) ∧
    (move_scan_step codes db barcode target now).notes = db.notes ∧
    (move_scan_step codes db barcode target now).locations = db.locations ∧
    (move_scan_step codes db barcode target now).batch_scans = db.batch_scans ∧
    (move_scan_step codes db barcode target now).next_item_id = db.next_item_id := by
  have hstep : move_scan_step codes db barcode target now = { db with
      items := db.items.map (fun x =>
        if x.id = it.id then { x with current_status := "IN" } else x),
      item_locations := db.item_locations ++
        [{ item_id := it.id, location_barcode := target, timestamp := now }],
      item_scans := db.item_scans ++
        [{ barcode := barcode, item_type := p.item_type, generation := p.generation,
           created_date := p.created_date, status := "IN" }] } := by
    unfold move_scan_step
    rw [hp, hfind]
    simp [hout]
  rw [hstep]
  have hmem : it ∈ db.items := List.mem_of_find?_eq_some hfind
  refine ⟨rfl, rfl, rfl, ?_, ?_, rfl, rfl, rfl, rfl⟩
  · have := List.mem_map_of_mem
      (fun x => if x.id = it.id then { x with current_status := "IN" } else x) hmem
    simpa using this
  · intro x hx hne
    have := List.mem_map_of_mem
      (fun x => if x.id = it.id then { x with current_status := "IN" } else x) hx
    simpa [if_neg hne] using this

/-- Witness for C3 on a two-item store: moving the `OUT` item flips exactly
its status to `IN`, appends one LocationAssignment with the current
timestamp and one `IN` ScanEvent, and leaves the other item unchanged. -/
theorem claim_C3_witness :
    (move_scan_step codes0 dbMove "PIPI_01_01_25_G1_0001" "SHELF" 5).items
      = [mkFixItem 1 "PIPI_01_01_25_G1_0001" "IN",
         mkFixItem 2 "PIPI_01_01_25_G1_0002" "IN"] ∧
    (move_scan_step codes0 dbMove "PIPI_01_01_25_G1_0001" "SHELF" 5).item_locations
      = [{ item_id := 1, location_barcode := "SHELF", timestamp := 5 }] ∧
    (move_scan_step codes0 dbMove "PIPI_01_01_25_G1_0001" "SHELF" 5).item_scans
      = [{ barcode := "PIPI_01_01_25_G1_0001", item_type := "PioPino",
           generation := "G1", created_date := "01.01.2025", status := "IN" }] := by
  have h := claim_C3 codes0 dbMove "PIPI_01_01_25_G1_0001" "SHELF" 5
    ⟨"PioPino", "G1", "01.01.2025", "PIPI_01_01_25_G1_0001"⟩
    (mkFixItem 1 "PIPI_01_01_25_G1_0001" "OUT") (by decide) (by decide) (by decide)
  refine ⟨?_, ?_, ?_⟩
  · rw [h.2.2.1]
    decide
  · rw [h.1]
    decide
  · rw [h.2.1]
    decide

/-- Claim C5 is false of the code and the code contradicts the stated
intent: `get_highest_item_number` opens its own connection, so the starting
sequence number is **not** computed inside the write transaction that
consumes it.  Concretely, two `create_batch` calls that both read the empty
store `dbC5` before either write begins (`c5_run`) both choose start 1;
with different batch prefixes both transactions commit, leaving two items
whose numeric suffix is 1 — an overlapping allocation, violating the
globally-unique-suffix invariant — while with the same prefix the second
transaction hits the `UNIQUE` constraint and rolls back entirely. -/
theorem claim_C5_bug :
    alloc_start dbC5 = 1 ∧
    c5_run = .ok c5_final ∧
    (c5_final.items.map fun x => x.full_barcode)
      = ["PIPI_01_01_25_G1_0001", "CHNU_01_01_25_G1_0001"] ∧
    dbSuffixes c5_final = [1, 1] ∧
    (match create_batch_write dbC5 "PIPI_01_01_25_G1" "PioPino" "G1" "01.01.2025"
        "SHELF" 1 1 0 with
      | .ok dbA => create_batch_write dbA "PIPI_01_01_25_G1" "PioPino" "G1"
          "01.01.2025" "SHELF" 1 1 0
      | .error e => .error e) = .error () := by
  refine ⟨by decide, rfl, by decide, by decide, rfl⟩

end ITS
